import Mathlib

/-
Verification of the telemetry ingestion and threshold-alerting pipeline of the
IIOT4.0 repository (InsightHub).

Sources embedded here:
  * supabase/functions/ingest-sensor/index.ts — the Express variant: input
    validation (validateSensorData), threshold evaluation and best-effort alert
    persistence (checkThresholdsAndCreateAlerts with its inner helper `check`),
    and the POST /api/ingest-sensor orchestrator.
  * the Deno edge-function variant (unnamed source file): corsHeaders, its own
    validateSensorData (same logic, different messages), and the Deno.serve
    handler with OPTIONS/405 dispatch and timestamp defaulting.

Numbers: sensor payload fields are JavaScript numbers. We model a JS number as
a rational together with the special values Infinity, -Infinity and NaN, and
transcribe the arithmetic (-, /, *) and comparisons the source performs with
IEEE-style rules for the special values (division by zero yields a signed
infinity, NaN propagates and compares false). Rationals stand in for finite
doubles; none of the source's computations here depend on rounding.

Note on index.ts brace placement: in the source file the closing brace of the
inner arrow function `check` is misplaced — textually the four
`check('temperature', ...) .. check('energy_consumption', ...)` invocations and
the `alerts` insert fall inside `check`'s own body, and the route registration
falls inside checkThresholdsAndCreateAlerts. That nesting contradicts the
file's own section comments ("// Check thresholds and create alerts",
"// Ingestion route", "// Start server") and the two sibling variants of the
same endpoint in the repository, which have the evidently intended structure:
`check` is self-contained, the four invocations and the conditional alert
insert form the body of checkThresholdsAndCreateAlerts, and the route handler
is registered at module level. We embed that intended composition; every
function body below is otherwise a line-by-line transcription of the source.
-/

namespace IIoT

/-- Model of a JavaScript number: a finite value (as a rational), one of the
two infinities, or NaN. -/
inductive JsNum where
  | fin (q : ℚ)
  | inf
  | ninf
  | nan
deriving DecidableEq, Repr

/-- Model of a JavaScript value occurring in a JSON payload field: a number, a
string, absent/undefined, or any other value (null, boolean, object, array —
for those only truthiness matters to the code under study). -/
inductive JsVal where
  | num (x : JsNum)
  | str (s : String)
  | missing
  | other (truthy : Bool)
deriving DecidableEq, Repr

/-- Exact rational subtraction, implemented over `Rat.divInt` so that the
kernel can evaluate it on concrete inputs; proven equal to `a - b` below. -/
def qSub (a b : ℚ) : ℚ := Rat.divInt (a.num * b.den - b.num * a.den) (a.den * b.den)

/-- Exact rational multiplication, kernel-evaluable; equal to `a * b`. -/
def qMul (a b : ℚ) : ℚ := Rat.divInt (a.num * b.num) (a.den * b.den)

/-- Exact rational division, kernel-evaluable; equal to `a / b` (both send a
zero divisor to 0, though the code below never divides by zero unguarded). -/
def qDiv (a b : ℚ) : ℚ := Rat.divInt (a.num * b.den) (a.den * b.num)

theorem qSub_eq (a b : ℚ) : qSub a b = a - b := by
  have ha : (a.den : ℚ) ≠ 0 := by exact_mod_cast a.den_nz
  have hb : (b.den : ℚ) ≠ 0 := by exact_mod_cast b.den_nz
  rw [qSub, Rat.divInt_eq_div]
  push_cast
  conv_rhs => rw [← Rat.num_div_den a, ← Rat.num_div_den b]
  field_simp
  ring

theorem qMul_eq (a b : ℚ) : qMul a b = a * b := by
  have ha : (a.den : ℚ) ≠ 0 := by exact_mod_cast a.den_nz
  have hb : (b.den : ℚ) ≠ 0 := by exact_mod_cast b.den_nz
  rw [qMul, Rat.divInt_eq_div]
  push_cast
  conv_rhs => rw [← Rat.num_div_den a, ← Rat.num_div_den b]
  field_simp

theorem qDiv_eq (a b : ℚ) : qDiv a b = a / b := by
  by_cases hb0 : b = 0
  · subst hb0
    simp [qDiv, Rat.divInt_eq_div]
  · have ha : (a.den : ℚ) ≠ 0 := by exact_mod_cast a.den_nz
    have hb : (b.den : ℚ) ≠ 0 := by exact_mod_cast b.den_nz
    have hbn : (b.num : ℚ) ≠ 0 := by exact_mod_cast Rat.num_ne_zero.2 hb0
    rw [qDiv, Rat.divInt_eq_div]
    push_cast
    conv_rhs => rw [← Rat.num_div_den a, ← Rat.num_div_den b]
    field_simp

/-- JavaScript `<` on numbers: NaN compares false with everything; -Infinity
is below and Infinity above every finite value. -/
def jsLt : JsNum → JsNum → Bool
  | .nan, _ => false
  | _, .nan => false
  | .fin a, .fin b => decide (a < b)
  | .fin _, .inf => true
  | .fin _, .ninf => false
  | .inf, _ => false
  | .ninf, .ninf => false
  | .ninf, _ => true

/-- JavaScript `>` on numbers. -/
def jsGt (a b : JsNum) : Bool := jsLt b a

/-- JavaScript subtraction on numbers (∞ − ∞ is NaN, NaN propagates). -/
def jsSub : JsNum → JsNum → JsNum
  | .nan, _ => .nan
  | _, .nan => .nan
  | .fin a, .fin b => .fin (qSub a b)
  | .fin _, .inf => .ninf
  | .fin _, .ninf => .inf
  | .inf, .inf => .nan
  | .inf, _ => .inf
  | .ninf, .ninf => .nan
  | .ninf, _ => .ninf

/-- JavaScript division on numbers: a nonzero finite value divided by zero
yields a signed infinity (ℚ has no −0, so 0 models +0), 0/0 is NaN, a finite
value over an infinity is 0, ∞/∞ is NaN, NaN propagates. -/
def jsDiv : JsNum → JsNum → JsNum
  | .nan, _ => .nan
  | _, .nan => .nan
  | .fin a, .fin b =>
      if b = 0 then (if 0 < a then .inf else if a < 0 then .ninf else .nan)
      else .fin (qDiv a b)
  | .fin _, .inf => .fin 0
  | .fin _, .ninf => .fin 0
  | .inf, .fin b => if b < 0 then .ninf else .inf
  | .ninf, .fin b => if b < 0 then .inf else .ninf
  | .inf, _ => .nan
  | .ninf, _ => .nan

/-- JavaScript multiplication on numbers (0 · ∞ is NaN, NaN propagates). -/
def jsMul : JsNum → JsNum → JsNum
  | .nan, _ => .nan
  | _, .nan => .nan
  | .fin a, .fin b => .fin (qMul a b)
  | .fin a, .inf => if 0 < a then .inf else if a < 0 then .ninf else .nan
  | .fin a, .ninf => if 0 < a then .ninf else if a < 0 then .inf else .nan
  | .inf, .fin b => if 0 < b then .inf else if b < 0 then .ninf else .nan
  | .ninf, .fin b => if 0 < b then .ninf else if b < 0 then .inf else .nan
  | .inf, .inf => .inf
  | .inf, .ninf => .ninf
  | .ninf, .inf => .ninf
  | .ninf, .ninf => .inf

/-- JavaScript truthiness: undefined, null, false, ±0, NaN and the empty
string are falsy; everything else is truthy. -/
def jsTruthy : JsVal → Bool
  | .num (.fin q) => decide (q ≠ 0)
  | .num .nan => false
  | .num _ => true
  | .str s => decide (s ≠ "")
  | .missing => false
  | .other t => t

/-- JavaScript `typeof v === 'string'`. -/
def isJsString : JsVal → Bool
  | .str _ => true
  | _ => false

/-- The request body of the ingestion endpoint (interface SensorReading):
`asset_id`, the four metric fields and the optional `timestamp`, each an
arbitrary JSON value before validation. -/
structure SensorPayload where
  asset_id : JsVal
  temperature : JsVal
  pressure : JsVal
  vibration : JsVal
  energy_consumption : JsVal
  timestamp : JsVal
deriving DecidableEq, Repr

/-- A machine's configured operating envelope (interface Asset): per-metric
min/max thresholds read from the asset directory. -/
structure Asset where
  id : String
  temperature_min : ℚ
  temperature_max : ℚ
  pressure_min : ℚ
  pressure_max : ℚ
  vibration_min : ℚ
  vibration_max : ℚ
  energy_min : ℚ
  energy_max : ℚ
deriving DecidableEq, Repr

/-- Alert severity (the source's string union 'low'|'medium'|'high'|'critical'). -/
inductive Severity where
  | low
  | medium
  | high
  | critical
deriving DecidableEq, Repr

/-- Alert status (the source's string union 'active'|'acknowledged'|'resolved'). -/
inductive AlertStatus where
  | active
  | acknowledged
  | resolved
deriving DecidableEq, Repr

/-- An alert record as built by the evaluator (interface Alert in index.ts).
The interface has exactly these six fields: in particular it carries a
`created_at` and no `id`. -/
structure Alert where
  asset_id : String
  type : String
  severity : Severity
  message : String
  status : AlertStatus
  created_at : String
deriving DecidableEq, Repr

/-- Transcription of `typeof value !== 'number' || isNaN(value)` negated:
the per-field test of validateSensorData accepts any number except NaN
(JavaScript's isNaN is false on ±Infinity). -/
def isValidNumber : JsVal → Bool
  | .num .nan => false
  | .num _ => true
  | _ => false

/-- Comparison of a payload field with a numeric literal, as in
`data.temperature < -50`. The fields compared this way are already known to
be non-NaN numbers when the source reaches these comparisons; for a
non-number we return false (the NaN-like default), which is unreachable
after the per-field check. -/
def numLtQ (v : JsVal) (q : ℚ) : Bool :=
  match v with
  | .num x => jsLt x (.fin q)
  | _ => false

/-- Comparison `data.temperature > 150` on a payload field, see numLtQ. -/
def numGtQ (v : JsVal) (q : ℚ) : Bool :=
  match v with
  | .num x => jsGt x (.fin q)
  | _ => false

/-- The loop `for (const field of requiredFields) { const value = data[field]; ... }`
iterates over the four metric names in this order, reading the synonymous
property of the payload. -/
def requiredFieldVals (d : SensorPayload) : List (String × JsVal) :=
  [("temperature", d.temperature), ("pressure", d.pressure),
   ("vibration", d.vibration), ("energy_consumption", d.energy_consumption)]

/-- Transcription of validateSensorData from index.ts: asset_id truthy and a
string; each metric field a non-NaN number, first offender reported as
"Invalid <field>"; then the range checks in source order. Returns the first
failing check's message, or none when the reading is valid. -/
def validateSensorData (d : SensorPayload) : Option String :=
  if !jsTruthy d.asset_id || !isJsString d.asset_id then some "Invalid asset_id"
  else
    match (requiredFieldVals d).findSome?
        (fun fv => if !isValidNumber fv.2 then some ("Invalid " ++ fv.1) else none) with
    | some e => some e
    | none =>
      if numLtQ d.temperature (-50) || numGtQ d.temperature 150 then
        some "Temperature out of bounds"
      else if numLtQ d.pressure 0 then some "Pressure must be >= 0"
      else if numLtQ d.vibration 0 then some "Vibration must be >= 0"
      else if numLtQ d.energy_consumption 0 then some "Energy must be >= 0"
      else none

/-- The Deno edge-function variant of validateSensorData: identical checks in
identical order, with its own message texts. -/
def denoValidateSensorData (d : SensorPayload) : Option String :=
  if !jsTruthy d.asset_id || !isJsString d.asset_id then some "Invalid asset_id"
  else
    match (requiredFieldVals d).findSome?
        (fun fv => if !isValidNumber fv.2 then some ("Invalid " ++ fv.1) else none) with
    | some e => some e
    | none =>
      if numLtQ d.temperature (-50) || numGtQ d.temperature 150 then
        some "Temperature must be between -50 and 150"
      else if numLtQ d.pressure 0 then some "Pressure must be non-negative"
      else if numLtQ d.vibration 0 then some "Vibration must be non-negative"
      else if numLtQ d.energy_consumption 0 then some "Energy consumption must be non-negative"
      else none

/-- Rule 1 of the spec's validator, stated in the spec's words: `asset_id`
present and a non-empty string. -/
def specRule1Ok (d : SensorPayload) : Bool :=
  match d.asset_id with
  | .str s => decide (s ≠ "")
  | _ => false

/-- The validator restated as the spec's rule list (amended at rule 2: the
per-field check rejects missing, non-numeric and NaN values, but an infinite
value passes it, since JavaScript's isNaN is false on ±Infinity): rules
applied in priority order, first failure reported. Used to verify that
validateSensorData applies its rules in exactly this order. -/
def validatorSpecOrder (d : SensorPayload) : Option String :=
  if !specRule1Ok d then some "Invalid asset_id"
  else if !isValidNumber d.temperature then some "Invalid temperature"
  else if !isValidNumber d.pressure then some "Invalid pressure"
  else if !isValidNumber d.vibration then some "Invalid vibration"
  else if !isValidNumber d.energy_consumption then some "Invalid energy_consumption"
  else if numLtQ d.temperature (-50) || numGtQ d.temperature 150 then
    some "Temperature out of bounds"
  else if numLtQ d.pressure 0 then some "Pressure must be >= 0"
  else if numLtQ d.vibration 0 then some "Vibration must be >= 0"
  else if numLtQ d.energy_consumption 0 then some "Energy must be >= 0"
  else none

/-- Rendering of a JS number for the alert message text, standing in for
JavaScript's number-to-string conversion (the exact decimal rendering of
non-integral values differs; no property verified here depends on it). -/
def jsNumToString : JsNum → String
  | .fin q => toString q
  | .inf => "Infinity"
  | .ninf => "-Infinity"
  | .nan => "NaN"

/-- Transcription of the inner helper `check` of checkThresholdsAndCreateAlerts:
given one metric's payload value, its label and the asset's max/min for it,
push one `<label>_high` alert if value > max, else one `<label>_low` alert if
value < min, else nothing; severity is critical when the percentage exceedance
over the violated bound is > 10, else medium. The guard
`typeof value === 'number'` is the outer match. `assetId` is `asset.id` and
`now` the timestamp taken once by the enclosing function. -/
def check (value : JsVal) (label : String) (mx mn : ℚ) (assetId now : String) :
    List Alert :=
  match value with
  | .num x =>
    if jsGt x (.fin mx) then
      let exceedance := jsMul (jsDiv (jsSub x (.fin mx)) (.fin mx)) (.fin 100)
      [{ asset_id := assetId
         type := label ++ "_high"
         severity := if jsGt exceedance (.fin 10) then .critical else .medium
         message := label ++ " " ++ jsNumToString x ++ " exceeds max threshold " ++ toString mx
         status := .active
         created_at := now }]
    else if jsLt x (.fin mn) then
      let exceedance := jsMul (jsDiv (jsSub (.fin mn) x) (.fin mn)) (.fin 100)
      [{ asset_id := assetId
         type := label ++ "_low"
         severity := if jsGt exceedance (.fin 10) then .critical else .medium
         message := label ++ " " ++ jsNumToString x ++ " below min threshold " ++ toString mn
         status := .active
         created_at := now }]
    else []
  | _ => []

/-- The alert drafts accumulated by checkThresholdsAndCreateAlerts: the four
`check` invocations in source order (temperature, pressure, vibration,
energy_consumption — the last labelled "energy"), each appending to `alerts`.
`now` is `new Date().toISOString()` sampled once at the start of the call. -/
def checkThresholdsAlerts (reading : SensorPayload) (asset : Asset) (now : String) :
    List Alert :=
  check reading.temperature "temperature" asset.temperature_max asset.temperature_min asset.id now
    ++ check reading.pressure "pressure" asset.pressure_max asset.pressure_min asset.id now
    ++ check reading.vibration "vibration" asset.vibration_max asset.vibration_min asset.id now
    ++ check reading.energy_consumption "energy" asset.energy_max asset.energy_min asset.id now

/-- Outcome of the best-effort alert persistence inside
checkThresholdsAndCreateAlerts: whether the batch insert into the alert store
was attempted (it is attempted exactly when `alerts.length > 0`), and whether
an insert failure was logged (`console.error`); the failure is never
re-thrown. -/
structure AlertWriteEffect where
  attempted : Bool
  failureLogged : Bool
deriving DecidableEq, Repr

/-- Transcription of checkThresholdsAndCreateAlerts: build the alert drafts,
then, if any, insert them into the alert store as one batch; an insert error
is only logged. `alertInsertOk` is the alert store's response to the insert. -/
def checkThresholdsAndCreateAlerts (reading : SensorPayload) (asset : Asset)
    (now : String) (alertInsertOk : Bool) : List Alert × AlertWriteEffect :=
  let alerts := checkThresholdsAlerts reading asset now
  if alerts.length > 0 then (alerts, ⟨true, !alertInsertOk⟩)
  else (alerts, ⟨false, false⟩)

/-- The external collaborators of the Express orchestrator, as test doubles:
the identity verifier's verdict on a token, the asset directory lookup, and
the outcomes of the reading-store and alert-store inserts. -/
structure IngestEnv where
  verify : String → Bool
  getAsset : String → Option Asset
  readingInsertOk : Bool
  alertInsertOk : Bool

/-- An HTTP request to the Express endpoint: the Authorization header, if any,
and the parsed JSON body. -/
structure IngestReq where
  authorization : Option String
  body : SensorPayload

/-- The HTTP response produced by the Express endpoint: status code and the
single string carried in the JSON body (`message` on 200, `error` otherwise). -/
structure Resp where
  status : ℕ
  body : String
deriving DecidableEq, Repr

/-- The durable side effects of one request: the row passed to the
reading-store insert, if that insert was attempted; whether it succeeded;
whether the alert-store insert was attempted; and whether an alert-store
failure was logged. -/
structure Effects where
  insertedReading : Option SensorPayload
  readingWriteSucceeded : Bool
  alertWriteAttempted : Bool
  alertFailureLogged : Bool
deriving DecidableEq, Repr

/-- Effects of a request that was rejected before any store write. -/
def noWrites : Effects := ⟨none, false, false, false⟩

/-- Split a character list at every space, JavaScript `split(' ')` style: the
result always has one more part than there are spaces, so `""` yields `[""]`. -/
def splitSpaceChars : List Char → List (List Char)
  | [] => [[]]
  | c :: cs =>
    match splitSpaceChars cs with
    | [] => []
    | r :: rs => if c = ' ' then [] :: r :: rs else (c :: r) :: rs

/-- JavaScript `s.split(' ')` (structurally recursive so the kernel can
evaluate it on concrete strings). -/
def jsSplitSpace (s : String) : List String :=
  (splitSpaceChars s.toList).map List.asString

/-- Transcription of `req.headers.authorization?.split(' ')[1]`. -/
def bearerToken (req : IngestReq) : Option String :=
  req.authorization.bind fun h => (jsSplitSpace h).get? 1

/-- The asset-directory query `.from('assets').eq('id', reading.asset_id)`,
keyed by the payload's asset_id (a non-empty string for every validated
payload; a non-string finds nothing). -/
def lookupAsset (env : IngestEnv) (v : JsVal) : Option Asset :=
  match v with
  | .str s => env.getAsset s
  | _ => none

/-- Transcription of `timestamp: reading.timestamp || new Date().toISOString()`:
the persisted timestamp is the submitted one when truthy, else the arrival
time — `||` tests falsiness, not absence. -/
def storedTimestamp (t : JsVal) (now : String) : JsVal :=
  if jsTruthy t then t else .str now

/-- Transcription of the POST /api/ingest-sensor handler of index.ts:
extract the bearer token (401 when falsy), verify it (401 on rejection),
validate the body (400 with the validator's reason), resolve the asset (404
when absent), insert the reading with the defaulted timestamp (a failed
insert is thrown and caught as a 500), then evaluate thresholds and persist
alerts best-effort, and respond 200. Returns the response paired with the
request's durable side effects. -/
def ingestHandler (env : IngestEnv) (req : IngestReq) (now : String) :
    Resp × Effects :=
  match bearerToken req with
  | none => (⟨401, "Missing Bearer token"⟩, noWrites)
  | some t =>
    if t = "" then (⟨401, "Missing Bearer token"⟩, noWrites)
    else if !env.verify t then (⟨401, "Invalid token"⟩, noWrites)
    else
      match validateSensorData req.body with
      | some e => (⟨400, e⟩, noWrites)
      | none =>
        match lookupAsset env req.body.asset_id with
        | none => (⟨404, "Asset not found"⟩, noWrites)
        | some asset =>
          let row := { req.body with timestamp := storedTimestamp req.body.timestamp now }
          if !env.readingInsertOk then
            (⟨500, "Internal server error"⟩, ⟨some row, false, false, false⟩)
          else
            let evalResult := checkThresholdsAndCreateAlerts req.body asset now env.alertInsertOk
            (⟨200, "Sensor reading stored and alerts evaluated"⟩,
             ⟨some row, true, evalResult.2.attempted, evalResult.2.failureLogged⟩)

/-- The corsHeaders constant of the Deno variant. -/
def corsHeaders : List (String × String) :=
  [("Access-Control-Allow-Origin", "*"),
   ("Access-Control-Allow-Methods", "POST, OPTIONS"),
   ("Access-Control-Allow-Headers", "Content-Type, Authorization")]

/-- The header set `{ ...corsHeaders, 'Content-Type': 'application/json' }`
used on every non-preflight response of the Deno variant. -/
def jsonHeaders : List (String × String) :=
  corsHeaders ++ [("Content-Type", "application/json")]

/-- Character-list version of "does the first list lead the second". -/
def leadsChars : List Char → List Char → Bool
  | [], _ => true
  | _ :: _, [] => false
  | a :: as, b :: bs => a = b && leadsChars as bs

/-- JavaScript `s.startsWith(p)` (structurally recursive for kernel
evaluation). -/
def jsStartsWith (s p : String) : Bool := leadsChars p.toList s.toList

/-- A response of the Deno variant: status, headers, and the string carried
in the JSON body (none for the bodyless preflight response). -/
structure DenoResp where
  status : ℕ
  headers : List (String × String)
  body : Option String
deriving DecidableEq, Repr

/-- A request to the Deno variant: method, Authorization header, parsed body. -/
structure DenoReq where
  method : String
  authorization : Option String
  body : SensorPayload

/-- External collaborators of the Deno variant (it evaluates no thresholds):
the identity verifier and the reading-store insert outcome. -/
structure DenoEnv where
  verify : String → Bool
  readingInsertOk : Bool

/-- Transcription of the Deno.serve handler: answer OPTIONS preflight with the
CORS headers and 204; reject any other non-POST method with 405; then
authenticate (the header must start with "Bearer "), validate, and insert the
reading with the defaulted timestamp. Returns the response paired with the
row passed to the reading-store insert, when one was attempted. -/
def denoServe (env : DenoEnv) (req : DenoReq) (now : String) :
    DenoResp × Option SensorPayload :=
  if req.method = "OPTIONS" then (⟨204, corsHeaders, none⟩, none)
  else if req.method ≠ "POST" then (⟨405, jsonHeaders, some "Method not allowed"⟩, none)
  else
    match req.authorization with
    | none => (⟨401, jsonHeaders, some "Missing or invalid Authorization header"⟩, none)
    | some h =>
      if !jsStartsWith h "Bearer " then
        (⟨401, jsonHeaders, some "Missing or invalid Authorization header"⟩, none)
      else
        let token := ((jsSplitSpace h).get? 1).getD ""
        if !env.verify token then (⟨401, jsonHeaders, some "Invalid token"⟩, none)
        else
          match denoValidateSensorData req.body with
          | some e => (⟨400, jsonHeaders, some e⟩, none)
          | none =>
            let row := { req.body with timestamp := storedTimestamp req.body.timestamp now }
            if !env.readingInsertOk then
              (⟨500, jsonHeaders, some "Failed to store sensor reading"⟩, some row)
            else
              (⟨200, jsonHeaders, some "Sensor reading stored successfully"⟩, some row)

/-- A concrete asset: the spec's example temperature envelope [20, 85], with
wide in-range envelopes on the other metrics. -/
def asset0 : Asset :=
  ⟨"machine-1", 20, 85, 0, 100, 0, 5, 0, 1000⟩

/-- A concrete valid reading for asset0 with temperature 95 (the spec's first
example) and the other metrics inside their envelopes. -/
def body0 : SensorPayload :=
  ⟨.str "machine-1", .num (.fin 95), .num (.fin 50), .num (.fin 1),
   .num (.fin 100), .missing⟩

/-- The same reading with temperature 90 (the spec's second example). -/
def body90 : SensorPayload := { body0 with temperature := .num (.fin 90) }

/-- A payload whose pressure is +Infinity and whose other fields are valid. -/
def infPressurePayload : SensorPayload :=
  { body0 with temperature := .num (.fin 20), pressure := .num .inf }

/-- A valid payload with a negative temperature (-10 lies inside the
ingestion sanity range [-50, 150]). -/
def negTempPayload : SensorPayload :=
  { body0 with temperature := .num (.fin (-10)) }

/-- asset0 with its temperature envelope lower bound set to 0. -/
def zeroMinAsset : Asset := { asset0 with temperature_min := 0 }

/-- A test-double environment: every token verifies, only "machine-1"
resolves, the reading insert succeeds, the alert insert fails. -/
def env0 : IngestEnv :=
  ⟨fun _ => true, fun s => if s = "machine-1" then some asset0 else none,
   true, false⟩

/-- A well-formed request carrying body0. -/
def req0 : IngestReq := ⟨some "Bearer tok", body0⟩

/-- A request without an Authorization header. -/
def reqNoAuth : IngestReq := ⟨none, body0⟩

/-- env0 with an identity verifier that rejects every token. -/
def envReject : IngestEnv := { env0 with verify := fun _ => false }

/-- env0 with an asset directory that resolves nothing. -/
def envNoAsset : IngestEnv := { env0 with getAsset := fun _ => none }

/-- A request whose body fails validation (negative pressure). -/
def reqBadPressure : IngestReq :=
  ⟨some "Bearer tok", { body0 with pressure := .num (.fin (-1)) }⟩

/- ### Helper lemmas -/

theorem validate_eq_rules (d : SensorPayload) :
    validateSensorData d = validatorSpecOrder d := by
  cases ha : d.asset_id <;>
    cases h1 : isValidNumber d.temperature <;>
    cases h2 : isValidNumber d.pressure <;>
    cases h3 : isValidNumber d.vibration <;>
    cases h4 : isValidNumber d.energy_consumption <;>
    simp [validateSensorData, validatorSpecOrder, requiredFieldVals, List.findSome?,
      jsTruthy, isJsString, specRule1Ok, ha, h1, h2, h3, h4]

theorem validate_none_conds (d : SensorPayload) (hv : validateSensorData d = none) :
    isValidNumber d.temperature = true
    ∧ isValidNumber d.pressure = true
    ∧ isValidNumber d.vibration = true
    ∧ isValidNumber d.energy_consumption = true
    ∧ numLtQ d.temperature (-50) = false
    ∧ numGtQ d.temperature 150 = false
    ∧ numLtQ d.pressure 0 = false
    ∧ numLtQ d.vibration 0 = false
    ∧ numLtQ d.energy_consumption 0 = false := by
  rw [validate_eq_rules] at hv
  unfold validatorSpecOrder at hv
  repeat' split at hv
  all_goals simp_all

theorem check_in_range (v mx mn : ℚ) (label aid now : String)
    (h1 : mn ≤ v) (h2 : v ≤ mx) :
    check (.num (.fin v)) label mx mn aid now = [] := by
  have hg : jsGt (.fin v) (.fin mx) = false := by
    simp only [jsGt, jsLt, decide_eq_false_iff_not]
    exact not_lt.2 h2
  have hl : jsLt (.fin v) (.fin mn) = false := by
    simp only [jsLt, decide_eq_false_iff_not]
    exact not_lt.2 h1
  unfold check
  simp [hg, hl]

theorem check_high_eq (x : JsNum) (label : String) (mx mn : ℚ) (aid now : String)
    (hg : jsGt x (.fin mx) = true) :
    check (.num x) label mx mn aid now =
      [⟨aid, label ++ "_high",
        if jsGt (jsMul (jsDiv (jsSub x (.fin mx)) (.fin mx)) (.fin 100)) (.fin 10)
          then .critical else .medium,
        label ++ " " ++ jsNumToString x ++ " exceeds max threshold " ++ toString mx,
        .active, now⟩] := by
  unfold check
  simp [hg]

theorem check_low_eq (x : JsNum) (label : String) (mx mn : ℚ) (aid now : String)
    (hg : jsGt x (.fin mx) = false) (hl : jsLt x (.fin mn) = true) :
    check (.num x) label mx mn aid now =
      [⟨aid, label ++ "_low",
        if jsGt (jsMul (jsDiv (jsSub (.fin mn) x) (.fin mn)) (.fin 100)) (.fin 10)
          then .critical else .medium,
        label ++ " " ++ jsNumToString x ++ " below min threshold " ++ toString mn,
        .active, now⟩] := by
  unfold check
  simp [hg, hl]

theorem check_mem_facts (value : JsVal) (label : String) (mx mn : ℚ)
    (aid now : String) (al : Alert) (h : al ∈ check value label mx mn aid now) :
    (al.severity = .critical ∨ al.severity = .medium)
    ∧ (al.type = label ++ "_high" ∨ al.type = label ++ "_low")
    ∧ al.created_at = now ∧ al.status = .active ∧ al.asset_id = aid := by
  cases value with
  | num x =>
    simp only [check] at h
    split at h
    · simp only [List.mem_singleton] at h
      subst h
      refine ⟨?_, Or.inl rfl, rfl, rfl, rfl⟩
      split
      · exact Or.inl rfl
      · exact Or.inr rfl
    · split at h
      · simp only [List.mem_singleton] at h
        subst h
        refine ⟨?_, Or.inr rfl, rfl, rfl, rfl⟩
        split
        · exact Or.inl rfl
        · exact Or.inr rfl
      · simp at h
  | str s => simp [check] at h
  | missing => simp [check] at h
  | other t => simp [check] at h

theorem check_length_le_one (value : JsVal) (label : String) (mx mn : ℚ)
    (aid now : String) : (check value label mx mn aid now).length ≤ 1 := by
  cases value with
  | num x =>
    simp only [check]
    split
    · simp
    · split <;> simp
  | str s => simp [check]
  | missing => simp [check]
  | other t => simp [check]

theorem check_map_type_sub (value : JsVal) (label : String) (mx mn : ℚ)
    (aid now : String) :
    ((check value label mx mn aid now).map Alert.type).Sublist
      [label ++ "_high", label ++ "_low"] := by
  cases value with
  | num x =>
    simp only [check]
    split
    · simp only [List.map_cons, List.map_nil]
      exact (List.nil_sublist _).cons₂ _
    · split
      · simp only [List.map_cons, List.map_nil]
        exact (List.Sublist.refl _).cons _
      · exact List.nil_sublist _
  | str s => simp [check]
  | missing => simp [check]
  | other t => simp [check]

theorem checkThresholdsAlerts_mem (r : SensorPayload) (a : Asset) (now : String)
    (al : Alert) (h : al ∈ checkThresholdsAlerts r a now) :
    (al.severity = .critical ∨ al.severity = .medium)
    ∧ al.created_at = now ∧ al.status = .active ∧ al.asset_id = a.id := by
  unfold checkThresholdsAlerts at h
  simp only [List.mem_append] at h
  rcases h with ((h | h) | h) | h <;>
    exact ⟨(check_mem_facts _ _ _ _ _ _ _ h).1, (check_mem_facts _ _ _ _ _ _ _ h).2.2.1,
      (check_mem_facts _ _ _ _ _ _ _ h).2.2.2.1, (check_mem_facts _ _ _ _ _ _ _ h).2.2.2.2⟩

theorem check_no_low_of_not_lt (v : JsVal) (label : String) (mx : ℚ)
    (aid now : String) (h : numLtQ v 0 = false) :
    (check v label mx 0 aid now).all (fun al => al.type == label ++ "_high") = true := by
  cases v with
  | num x =>
    have hx : jsLt x (.fin 0) = false := by simpa [numLtQ] using h
    simp only [check]
    split
    · simp
    · simp [hx]
  | str s => simp [check]
  | missing => simp [check]
  | other t => simp [check]

/-- A Deno-variant environment whose verifier accepts everything and whose
reading insert succeeds. -/
def denoEnv0 : DenoEnv := ⟨fun _ => true, true⟩

theorem ingestHandler_timestamp_congr (env : IngestEnv) (auth : Option String)
    (b : SensorPayload) (now : String) (t t' : JsVal)
    (h : storedTimestamp t now = storedTimestamp t' now) :
    ingestHandler env ⟨auth, { b with timestamp := t }⟩ now
      = ingestHandler env ⟨auth, { b with timestamp := t' }⟩ now := by
  unfold ingestHandler
  dsimp only
  rw [h]
  rfl

theorem denoServe_timestamp_congr (env : DenoEnv) (m : String)
    (auth : Option String) (b : SensorPayload) (now : String) (t t' : JsVal)
    (h : storedTimestamp t now = storedTimestamp t' now) :
    denoServe env ⟨m, auth, { b with timestamp := t }⟩ now
      = denoServe env ⟨m, auth, { b with timestamp := t' }⟩ now := by
  unfold denoServe
  dsimp only
  rw [h]
  rfl

/- ### Claim theorems -/

/-- C1: whenever the reading-store write succeeded, the endpoint responds
200 with the success message, and the response of every request is entirely
independent of the alert store's insert outcome — an alert-store failure is
recorded in the log effect only and never changes the response. -/
theorem c1_alert_failure_never_changes_response (env : IngestEnv)
    (req : IngestReq) (now : String) :
    ((ingestHandler env req now).2.readingWriteSucceeded = true →
      (ingestHandler env req now).1
        = ⟨200, "Sensor reading stored and alerts evaluated"⟩)
    ∧ (∀ b : Bool,
      (ingestHandler { env with alertInsertOk := b } req now).1
        = (ingestHandler env req now).1) := by
  obtain ⟨ver, ga, rok, aok⟩ := env
  constructor
  · unfold ingestHandler
    repeat' split
    all_goals simp [noWrites]
  · intro b
    unfold ingestHandler lookupAsset
    dsimp only
    repeat' split
    all_goals rfl

/-- C1 witness: with a succeeding reading store and a failing alert store,
the request is answered 200, and flipping the alert-store outcome leaves the
response unchanged. -/
theorem c1_witness :
    (ingestHandler env0 req0 "T").2.readingWriteSucceeded = true
    ∧ (ingestHandler env0 req0 "T").1
        = ⟨200, "Sensor reading stored and alerts evaluated"⟩
    ∧ (ingestHandler { env0 with alertInsertOk := true } req0 "T").1
        = (ingestHandler env0 req0 "T").1 :=
  ⟨by decide,
   (c1_alert_failure_never_changes_response env0 req0 "T").1 (by decide),
   (c1_alert_failure_never_changes_response env0 req0 "T").2 true⟩

/-- C5: a request rejected before the reading write — no bearer token
extracted (or an empty one), a credential the identity verifier rejects, a
validation failure (400 carrying the validator's specific reason), or an
unknown asset (404) — aborts with the mapped status and produces no reading
write and no alert write (the noWrites effect record). -/
theorem c5_early_rejections_map_status_no_writes (env : IngestEnv)
    (req : IngestReq) (now : String) :
    (bearerToken req = none →
      ingestHandler env req now = (⟨401, "Missing Bearer token"⟩, noWrites))
    ∧ (bearerToken req = some "" →
      ingestHandler env req now = (⟨401, "Missing Bearer token"⟩, noWrites))
    ∧ (∀ t, bearerToken req = some t → t ≠ "" → env.verify t = false →
      ingestHandler env req now = (⟨401, "Invalid token"⟩, noWrites))
    ∧ (∀ t e, bearerToken req = some t → t ≠ "" → env.verify t = true →
      validateSensorData req.body = some e →
      ingestHandler env req now = (⟨400, e⟩, noWrites))
    ∧ (∀ t, bearerToken req = some t → t ≠ "" → env.verify t = true →
      validateSensorData req.body = none →
      lookupAsset env req.body.asset_id = none →
      ingestHandler env req now = (⟨404, "Asset not found"⟩, noWrites)) := by
  refine ⟨?_, ?_, ?_, ?_, ?_⟩
  · intro hb
    simp [ingestHandler, hb]
  · intro hb
    simp [ingestHandler, hb]
  · intro t hb ht hv
    simp [ingestHandler, hb, ht, hv]
  · intro t e hb ht hv hval
    simp [ingestHandler, hb, ht, hv, hval]
  · intro t hb ht hv hval ha
    simp [ingestHandler, hb, ht, hv, hval, ha]

/-- C5 witness: a missing header, a rejected token, a negative pressure and
an unknown asset are each answered with the mapped status and no writes. -/
theorem c5_witness :
    bearerToken reqNoAuth = none
    ∧ ingestHandler env0 reqNoAuth "T" = (⟨401, "Missing Bearer token"⟩, noWrites)
    ∧ ingestHandler envReject req0 "T" = (⟨401, "Invalid token"⟩, noWrites)
    ∧ ingestHandler env0 reqBadPressure "T" = (⟨400, "Pressure must be >= 0"⟩, noWrites)
    ∧ ingestHandler envNoAsset req0 "T" = (⟨404, "Asset not found"⟩, noWrites) :=
  ⟨by decide,
   (c5_early_rejections_map_status_no_writes env0 reqNoAuth "T").1 (by decide),
   (c5_early_rejections_map_status_no_writes envReject req0 "T").2.2.1 "tok"
     (by decide) (by decide) (by decide),
   (c5_early_rejections_map_status_no_writes env0 reqBadPressure "T").2.2.2.1 "tok"
     "Pressure must be >= 0" (by decide) (by decide) (by decide) (by decide),
   (c5_early_rejections_map_status_no_writes envNoAsset req0 "T").2.2.2.2 "tok"
     (by decide) (by decide) (by decide) (by decide) (by decide)⟩

/-- C8: in the Deno variant, an OPTIONS preflight is answered with exactly
the CORS headers — which carry allow-methods "POST, OPTIONS" and
allow-headers "Content-Type, Authorization" — and every request whose method
is neither OPTIONS nor POST receives status 405. -/
theorem c8_preflight_cors_and_405 (env : DenoEnv) (req : DenoReq) (now : String) :
    (req.method = "OPTIONS" →
      denoServe env req now = (⟨204, corsHeaders, none⟩, none))
    ∧ (req.method ≠ "OPTIONS" → req.method ≠ "POST" →
      (denoServe env req now).1.status = 405)
    ∧ ("Access-Control-Allow-Methods", "POST, OPTIONS") ∈ corsHeaders
    ∧ ("Access-Control-Allow-Headers", "Content-Type, Authorization") ∈ corsHeaders := by
  refine ⟨?_, ?_, by decide, by decide⟩
  · intro h
    simp [denoServe, h]
  · intro h1 h2
    simp [denoServe, h1, h2]

/-- C8 witness: a concrete OPTIONS request gets 204 with the CORS headers and
a concrete GET request gets 405. -/
theorem c8_witness :
    denoServe denoEnv0 ⟨"OPTIONS", none, body0⟩ "T" = (⟨204, corsHeaders, none⟩, none)
    ∧ (denoServe denoEnv0 ⟨"GET", none, body0⟩ "T").1.status = 405 :=
  ⟨(c8_preflight_cors_and_405 denoEnv0 ⟨"OPTIONS", none, body0⟩ "T").1 rfl,
   (c8_preflight_cors_and_405 denoEnv0 ⟨"GET", none, body0⟩ "T").2.1
     (by decide) (by decide)⟩

/-- C9: a timestamp supplied as the empty string — or any other falsy value —
is replaced by the arrival time exactly as an absent timestamp is, in both
endpoint variants: `||` tests falsiness, not field absence, so the whole
request outcome is identical for any two falsy timestamps. -/
theorem c9_falsy_timestamp_defaults_to_arrival (env : IngestEnv)
    (denv : DenoEnv) (auth : Option String) (m : String) (b : SensorPayload)
    (now : String) (t t' : JsVal)
    (ht : jsTruthy t = false) (ht' : jsTruthy t' = false) :
    storedTimestamp t now = .str now
    ∧ ingestHandler env ⟨auth, { b with timestamp := t }⟩ now
        = ingestHandler env ⟨auth, { b with timestamp := t' }⟩ now
    ∧ denoServe denv ⟨m, auth, { b with timestamp := t }⟩ now
        = denoServe denv ⟨m, auth, { b with timestamp := t' }⟩ now := by
  have h1 : storedTimestamp t now = .str now := by
    simp [storedTimestamp, ht]
  have h2 : storedTimestamp t' now = .str now := by
    simp [storedTimestamp, ht']
  exact ⟨h1, ingestHandler_timestamp_congr env auth b now t t' (h1.trans h2.symm),
    denoServe_timestamp_congr denv m auth b now t t' (h1.trans h2.symm)⟩

/-- C9 witness: an empty-string timestamp and an absent timestamp are both
falsy, stored as the arrival time, and yield identical request outcomes. -/
theorem c9_witness :
    jsTruthy (.str "") = false ∧ jsTruthy JsVal.missing = false
    ∧ storedTimestamp (.str "") "T" = .str "T"
    ∧ ingestHandler env0 ⟨some "Bearer tok", { body0 with timestamp := .str "" }⟩ "T"
        = ingestHandler env0 ⟨some "Bearer tok", { body0 with timestamp := .missing }⟩ "T" :=
  ⟨by decide, by decide,
   (c9_falsy_timestamp_defaults_to_arrival env0 denoEnv0 (some "Bearer tok") "POST"
     body0 "T" (.str "") .missing (by decide) (by decide)).1,
   (c9_falsy_timestamp_defaults_to_arrival env0 denoEnv0 (some "Bearer tok") "POST"
     body0 "T" (.str "") .missing (by decide) (by decide)).2.1⟩

/-- C2 counterexample: the per-field check `typeof v !== 'number' || isNaN(v)`
does not reject infinite values (JavaScript's isNaN is false on Infinity), and
a positive-infinite pressure also passes every range rule, so a payload whose
pressure is Infinity is accepted by the validator instead of being rejected
with a reason naming the field. -/
theorem c2_infinite_pressure_accepted :
    infPressurePayload.pressure = .num .inf
    ∧ validateSensorData infPressurePayload = none := by decide

/-- C2 (amended): the validator applies its rules in the stated priority
order — asset_id a non-empty string; then each of temperature, pressure,
vibration, energy_consumption present and a non-NaN number (missing,
non-numeric and NaN values are rejected with the reason naming the field, but
infinite values pass this rule; an infinite temperature is still caught by
the range rule, and a negative-infinite pressure/vibration/energy by the
non-negativity rules, while a positive-infinite one is accepted); then
temperature in [-50,150]; then pressure >= 0; then vibration >= 0; then
energy_consumption >= 0 — and the first failing rule determines the reported
reason: validateSensorData coincides with the rule-list validator
validatorSpecOrder on every payload. -/
theorem c2_validator_priority_order :
    ∀ d : SensorPayload, validateSensorData d = validatorSpecOrder d :=
  validate_eq_rules

/-- C6 counterexample: the threshold evaluator's drafts are not free of
`created_at` — the draft produced for a reading of temperature 95 against the
envelope [20, 85] carries `created_at` equal to the evaluation-time clock
value — and the alert-store write is performed inside
checkThresholdsAndCreateAlerts itself rather than at a separate persistence
step. -/
theorem c6_draft_carries_created_at :
    (checkThresholdsAlerts body0 asset0 "2025-06-01T00:00:00.000Z").map Alert.created_at
      = ["2025-06-01T00:00:00.000Z"]
    ∧ (checkThresholdsAndCreateAlerts body0 asset0 "T" true).2.attempted = true := by
  decide

/-- C6 (amended): the threshold evaluation is a pure function of the reading,
the envelope and the clock value sampled at its start; its drafts carry no id
(the Alert record has no such field) but do carry `created_at`, set to that
clock value on every draft; and checkThresholdsAndCreateAlerts itself
performs the best-effort alert-store write — attempted exactly when drafts
exist, with a failure only logged. -/
theorem c6_evaluator_effects (r : SensorPayload) (a : Asset) (now : String)
    (ok : Bool) :
    (checkThresholdsAlerts r a now).map Alert.created_at
      = List.replicate (checkThresholdsAlerts r a now).length now
    ∧ (checkThresholdsAndCreateAlerts r a now ok).1 = checkThresholdsAlerts r a now
    ∧ (checkThresholdsAndCreateAlerts r a now ok).2.attempted
        = decide (0 < (checkThresholdsAlerts r a now).length)
    ∧ (checkThresholdsAndCreateAlerts r a now ok).2.failureLogged
        = ((checkThresholdsAndCreateAlerts r a now ok).2.attempted && !ok) := by
  refine ⟨?_, ?_, ?_, ?_⟩
  · have hlen : (checkThresholdsAlerts r a now).length
        = ((checkThresholdsAlerts r a now).map Alert.created_at).length := by
      simp
    rw [hlen]
    refine List.eq_replicate_of_mem ?_
    intro b hb
    rcases List.mem_map.1 hb with ⟨al, hal, rfl⟩
    exact (checkThresholdsAlerts_mem r a now al hal).2.1
  · simp only [checkThresholdsAndCreateAlerts]
    split <;> rfl
  · simp only [checkThresholdsAndCreateAlerts]
    split
    · rename_i h
      simp [h]
    · rename_i h
      simp [Nat.lt_of_not_le, h]
  · simp only [checkThresholdsAndCreateAlerts]
    split <;> simp

/-- C7 counterexample: the claim's "for every metric with min == 0" fails for
temperature — validation admits negative temperatures down to -50, so a
validated reading with temperature -10 against an envelope whose
temperature_min is 0 does take the low branch, evaluating
(min − value) / min with a zero divisor (IEEE: +Infinity, hence a critical
temperature_low alert). -/
theorem c7_temperature_low_with_zero_min :
    validateSensorData negTempPayload = none
    ∧ zeroMinAsset.temperature_min = 0
    ∧ (checkThresholdsAlerts negTempPayload zeroMinAsset "T").map
        (fun al => (al.type, al.severity))
      = [("temperature_low", Severity.critical)] := by
  decide

/-- C7 (amended): for every reading accepted by ingestion validation, the
division by zero in the low-exceedance formula is unreachable for the three
metrics whose validated values are non-negative — for pressure, vibration and
energy_consumption with a configured min of 0, the low-branch condition
value < 0 is never true, so the evaluator emits at most a high alert for
them; the guard does not extend to temperature, whose validated values may be
negative. -/
theorem c7_no_zero_divisor_for_nonneg_metrics (d : SensorPayload)
    (mxp mxv mxe : ℚ) (aid now : String) (hv : validateSensorData d = none) :
    (∀ x, d.pressure = .num x → jsLt x (.fin 0) = false)
    ∧ (check d.pressure "pressure" mxp 0 aid now).all
        (fun al => al.type == "pressure" ++ "_high") = true
    ∧ (∀ x, d.vibration = .num x → jsLt x (.fin 0) = false)
    ∧ (check d.vibration "vibration" mxv 0 aid now).all
        (fun al => al.type == "vibration" ++ "_high") = true
    ∧ (∀ x, d.energy_consumption = .num x → jsLt x (.fin 0) = false)
    ∧ (check d.energy_consumption "energy" mxe 0 aid now).all
        (fun al => al.type == "energy" ++ "_high") = true := by
  obtain ⟨-, -, -, -, -, -, hp, hvb, he⟩ := validate_none_conds d hv
  refine ⟨?_, check_no_low_of_not_lt _ _ _ _ _ hp, ?_,
    check_no_low_of_not_lt _ _ _ _ _ hvb, ?_, check_no_low_of_not_lt _ _ _ _ _ he⟩
  · intro x hx
    rw [hx] at hp
    simpa [numLtQ] using hp
  · intro x hx
    rw [hx] at hvb
    simpa [numLtQ] using hvb
  · intro x hx
    rw [hx] at he
    simpa [numLtQ] using he

/-- C7 witness: body0 is a validated reading, and with pressure envelope
min 0 / max 100 its pressure check emits only (at most) a high alert. -/
theorem c7_witness :
    validateSensorData body0 = none
    ∧ (check body0.pressure "pressure" 100 0 "machine-1" "T").all
        (fun al => al.type == "pressure" ++ "_high") = true :=
  ⟨by decide,
   (c7_no_zero_divisor_for_nonneg_metrics body0 100 5 1000 "machine-1" "T"
     (by decide)).2.1⟩

/-- C3: for a finite metric value above a nonzero max, the single emitted
high alert's severity is critical exactly when the exceedance
(value − max) / max × 100 is > 10, else medium; symmetrically below a nonzero
min with (min − value) / min × 100; every alert the evaluator emits is medium
or critical; and on the spec's examples (envelope temperature [20, 85]) a
reading of 95 yields one critical temperature_high alert and a reading of 90
one medium temperature_high alert. -/
theorem c3_severity_classification :
    (∀ (v mx mn : ℚ) (label aid now : String), mx < v → mx ≠ 0 →
      (check (.num (.fin v)) label mx mn aid now).map Alert.severity
        = [if (v - mx) / mx * 100 > 10 then Severity.critical else Severity.medium])
    ∧ (∀ (v mx mn : ℚ) (label aid now : String), v ≤ mx → v < mn → mn ≠ 0 →
      (check (.num (.fin v)) label mx mn aid now).map Alert.severity
        = [if (mn - v) / mn * 100 > 10 then Severity.critical else Severity.medium])
    ∧ (∀ (r : SensorPayload) (a : Asset) (now : String),
      (checkThresholdsAlerts r a now).all
        (fun al => al.severity == Severity.medium || al.severity == Severity.critical)
          = true)
    ∧ (checkThresholdsAlerts body0 asset0 "T").map (fun al => (al.type, al.severity))
        = [("temperature_high", Severity.critical)]
    ∧ (checkThresholdsAlerts body90 asset0 "T").map (fun al => (al.type, al.severity))
        = [("temperature_high", Severity.medium)] := by
  refine ⟨?_, ?_, ?_, by decide, by decide⟩
  · intro v mx mn label aid now hgt hmx
    have hg : jsGt (.fin v) (.fin mx) = true := by
      simp only [jsGt, jsLt, decide_eq_true_eq]
      exact hgt
    rw [check_high_eq _ _ _ _ _ _ hg]
    simp [jsSub, jsDiv, jsMul, jsGt, jsLt, hmx, qSub_eq, qDiv_eq, qMul_eq, gt_iff_lt]
  · intro v mx mn label aid now hle hlt hmn
    have hg : jsGt (.fin v) (.fin mx) = false := by
      simp only [jsGt, jsLt, decide_eq_false_iff_not]
      exact not_lt.2 hle
    have hl : jsLt (.fin v) (.fin mn) = true := by
      simp only [jsLt, decide_eq_true_eq]
      exact hlt
    rw [check_low_eq _ _ _ _ _ _ hg hl]
    simp [jsSub, jsDiv, jsMul, jsGt, jsLt, hmn, qSub_eq, qDiv_eq, qMul_eq, gt_iff_lt]
  · intro r a now
    rw [List.all_eq_true]
    intro al hal
    rcases (checkThresholdsAlerts_mem r a now al hal).1 with h | h <;> simp [h]

/-- C3 witness: the high-branch severity rule applied at value 95, max 85,
min 20 — exceedance 200/17 ≈ 11.8 > 10, so the single alert is critical. -/
theorem c3_witness :
    (85:ℚ) < 95 ∧ (85:ℚ) ≠ 0
    ∧ (check (.num (.fin 95)) "temperature" 85 20 "machine-1" "T").map Alert.severity
        = [if ((95:ℚ) - 85) / 85 * 100 > 10 then Severity.critical else Severity.medium] :=
  ⟨by norm_num, by norm_num,
   c3_severity_classification.1 95 85 20 "temperature" "machine-1" "T"
     (by norm_num) (by norm_num)⟩

/-- C4: metrics are evaluated independently in the fixed order temperature,
pressure, vibration, energy (witnessed by the alert types always forming a
sublist of that fixed order); a value with min <= value <= max — boundary
equality included — produces no alert; a metric never produces more than one
alert per reading; and a violating value produces exactly one alert whose
direction is high when value > max and low when value < min, never both. -/
theorem c4_per_metric_single_direction :
    (∀ (v mx mn : ℚ) (label aid now : String), mn ≤ v → v ≤ mx →
      check (.num (.fin v)) label mx mn aid now = [])
    ∧ (∀ (value : JsVal) (label : String) (mx mn : ℚ) (aid now : String),
        (check value label mx mn aid now).length ≤ 1)
    ∧ (∀ (v mx mn : ℚ) (label aid now : String), mx < v →
        (check (.num (.fin v)) label mx mn aid now).map Alert.type = [label ++ "_high"])
    ∧ (∀ (v mx mn : ℚ) (label aid now : String), v ≤ mx → v < mn →
        (check (.num (.fin v)) label mx mn aid now).map Alert.type = [label ++ "_low"])
    ∧ (∀ (r : SensorPayload) (a : Asset) (now : String),
        ((checkThresholdsAlerts r a now).map Alert.type).Sublist
          ["temperature_high", "temperature_low", "pressure_high", "pressure_low",
           "vibration_high", "vibration_low", "energy_high", "energy_low"]) := by
  refine ⟨check_in_range, check_length_le_one, ?_, ?_, ?_⟩
  · intro v mx mn label aid now hgt
    have hg : jsGt (.fin v) (.fin mx) = true := by
      simp only [jsGt, jsLt, decide_eq_true_eq]
      exact hgt
    rw [check_high_eq _ _ _ _ _ _ hg]
    simp
  · intro v mx mn label aid now hle hlt
    have hg : jsGt (.fin v) (.fin mx) = false := by
      simp only [jsGt, jsLt, decide_eq_false_iff_not]
      exact not_lt.2 hle
    have hl : jsLt (.fin v) (.fin mn) = true := by
      simp only [jsLt, decide_eq_true_eq]
      exact hlt
    rw [check_low_eq _ _ _ _ _ _ hg hl]
    simp
  · intro r a now
    unfold checkThresholdsAlerts
    simp only [List.map_append]
    exact
      (((check_map_type_sub r.temperature "temperature" a.temperature_max
            a.temperature_min a.id now).append
        (check_map_type_sub r.pressure "pressure" a.pressure_max
            a.pressure_min a.id now)).append
        (check_map_type_sub r.vibration "vibration" a.vibration_max
            a.vibration_min a.id now)).append
        (check_map_type_sub r.energy_consumption "energy" a.energy_max
            a.energy_min a.id now)

/-- C4 witness: a boundary value (85 with max 85, min 20) produces no alert,
and a violating value (95) produces exactly the high-direction alert. -/
theorem c4_witness :
    ((20:ℚ) ≤ 85 ∧ (85:ℚ) ≤ 85
      ∧ check (.num (.fin 85)) "temperature" 85 20 "machine-1" "T" = [])
    ∧ ((85:ℚ) < 95
      ∧ (check (.num (.fin 95)) "temperature" 85 20 "machine-1" "T").map Alert.type
          = ["temperature" ++ "_high"]) :=
  ⟨⟨by norm_num, by norm_num,
    c4_per_metric_single_direction.1 85 85 20 "temperature" "machine-1" "T"
      (by norm_num) (by norm_num)⟩,
   ⟨by norm_num,
    c4_per_metric_single_direction.2.2.1 95 85 20 "temperature" "machine-1" "T"
      (by norm_num)⟩⟩

/-- C10: every alert record produced by one evaluation of a reading against
an envelope carries the identical created_at value — the clock value `now`
sampled once at the start of checkThresholdsAndCreateAlerts and shared by all
four metric checks. -/
theorem c10_created_at_sampled_once :
    ∀ (r : SensorPayload) (a : Asset) (now : String),
      (checkThresholdsAlerts r a now).all (fun al => al.created_at == now) = true := by
  intro r a now
  rw [List.all_eq_true]
  intro al hal
  have h := (checkThresholdsAlerts_mem r a now al hal).2.1
  simp [h]

end IIoT
